import Mathlib

/-!
Shallow embedding of `src/semaphoreui_client/client.py`, the single source
module of the semaphoreui-client repository.

Modelling conventions:
- Each client method becomes a Lean function over the same arguments plus the
  data the remote server answers with (status codes as `Nat`, parsed bodies as
  records or `Option` records where parsing can fail).  The function returns
  the ordered list of HTTP requests the Python method would issue together
  with an `Except PyError` result mirroring normal return versus raised
  exception.
- Python dataclass records are Lean structures; the `client` back-reference
  field carried by every record in the source is dropped, since it only routes
  follow-up calls and carries no data.
- JSON request payloads are modelled by the inductive `Json` type, written out
  field by field exactly as the Python dict literals in the source.
- A body that fails to parse as a record (the `except ValueError` paths in the
  source, covering both an empty body and a JSON decode failure) is modelled
  as a `none` body.
-/

set_option autoImplicit false

namespace SemaphoreClient

/-- Minimal JSON model for request payloads, mirroring the Python dict
literals of the source module. -/
inductive Json where
  | null
  | str (s : String)
  | num (n : Int)
  | bool (b : Bool)
  | arr (xs : List Json)
  | obj (fields : List (String × Json))

/-- The Python exceptions the source module can raise: `ValueError` from the
explicit `raise` statements and from body parsing, `AssertionError` from the
status-code `assert` statements, and `IndexError` from `[0]` on an empty
list. -/
inductive PyError where
  | valueError (msg : String)
  | assertionError
  | indexError
deriving DecidableEq, Repr

/-- HTTP method of an issued request. -/
inductive Method where
  | get
  | post
  | put
  | delete
deriving DecidableEq, Repr

/-- One HTTP request issued by the client: method, full URL, and the JSON
body when one is sent. -/
structure Request where
  method : Method
  url : String
  body : Option Json

/-- Server data consumed by a create operation with the relist fallback: the
status code and (possibly unparsable) body of the POST response, then the
status code and body of the subsequent list GET. -/
structure CreateEnv (α : Type) where
  createStatus : Nat
  createBody : Option α
  listStatus : Nat
  listBody : List α

/-- Nested credential value of a key using ssh authentication
(dataclass `KeySsh`). -/
structure KeySsh where
  login : String
  passphrase : String
  private_key : String
deriving DecidableEq, Repr

/-- Nested credential value of a key using username and password
(dataclass `KeyLoginPassword`). -/
structure KeyLoginPassword where
  login : String
  password : String
deriving DecidableEq, Repr

/-- The `Key` record (dataclass `Key`, without the `client` back-reference). -/
structure Key where
  id : Int
  name : String
  type : String
  project_id : Int
  string : String
  override_secret : Bool
  login_password : KeyLoginPassword
  ssh : KeySsh
deriving DecidableEq, Repr

/-- Embedding of `SemaphoreUIClient.get_project_keys`: GET the project keys
collection, assert status 200, deserialize the returned list. -/
def get_project_keys (api : String) (project_id : Int) (status_code : Nat)
    (body : List Key) : List Request × Except PyError (List Key) :=
  ([⟨Method.get, api ++ "/project/" ++ toString project_id ++ "/keys", none⟩],
   if status_code = 200 then .ok body else .error .assertionError)

/-- Embedding of `SemaphoreUIClient.create_project_key`.  Validation happens
before any request: `key_type` must be `ssh` or `login_password` and the
matching credential tuple must be present, else `ValueError` is raised with
no request issued.  The payload always carries both credential sub-objects,
the unused one filled with empty strings.  After the POST the source asserts
status 204 and tries to parse the body as a `Key`; on a body parse failure
(`except ValueError`) it relists the project keys and returns element `[0]`
of the entries whose name equals the submitted name (raising `IndexError`
when there is none). -/
def create_project_key (api : String) (project_id : Int) (name : String)
    (key_type : String) (override_secret : Bool)
    (login_password : Option (String × String))
    (ssh : Option (String × String × String))
    (srv : CreateEnv Key) : List Request × Except PyError Key :=
  if key_type ≠ "ssh" ∧ key_type ≠ "login_password" then
    ([], .error (.valueError ("Invalid key_type: " ++ key_type ++
      ". Acceptable values are: ssh, login_password")))
  else
    let json_data : Except PyError Json :=
      if key_type = "ssh" then
        match ssh with
        | none => .error (.valueError "ssh parameter must be set on key_type: ssh")
        | some (l, pp, pk) =>
          .ok (.obj [("id", .num 0), ("project_id", .num project_id),
            ("name", .str name), ("type", .str key_type),
            ("override_secret", .bool override_secret),
            ("login_password", .obj [("login", .str ""), ("password", .str "")]),
            ("ssh", .obj [("login", .str l), ("passphrase", .str pp),
              ("private_key", .str pk)])])
      else
        match login_password with
        | none => .error (.valueError
            "login_password parameter must be set on key_type: login_password")
        | some (l, p) =>
          .ok (.obj [("id", .num 0), ("project_id", .num project_id),
            ("name", .str name), ("type", .str key_type),
            ("override_secret", .bool override_secret),
            ("login_password", .obj [("login", .str l), ("password", .str p)]),
            ("ssh", .obj [("login", .str ""), ("passphrase", .str ""),
              ("private_key", .str "")])])
    match json_data with
    | .error e => ([], .error e)
    | .ok payload =>
      let postReq : Request :=
        ⟨Method.post, api ++ "/project/" ++ toString project_id ++ "/keys",
          some payload⟩
      let rest : List Request × Except PyError Key :=
        if srv.createStatus ≠ 204 then ([], .error .assertionError)
        else
          match srv.createBody with
          | some k => ([], .ok k)
          | none =>
            let listed := get_project_keys api project_id srv.listStatus srv.listBody
            match listed.2 with
            | .error e => (listed.1, .error e)
            | .ok keys =>
              match keys.filter (fun k => k.name == name) with
              | [] => (listed.1, .error .indexError)
              | k :: _ => (listed.1, .ok k)
      (postReq :: rest.1, rest.2)

/-- The `Repository` record (dataclass `Repository`, without the `client`
back-reference). -/
structure Repository where
  id : Int
  name : String
  project_id : Int
  git_url : String
  git_branch : String
  ssh_key_id : Int
deriving DecidableEq, Repr

/-- Embedding of `SemaphoreUIClient.get_project_repositories`: GET the
project repositories collection, assert status 200, deserialize the list. -/
def get_project_repositories (api : String) (project_id : Int)
    (status_code : Nat) (body : List Repository) :
    List Request × Except PyError (List Repository) :=
  ([⟨Method.get, api ++ "/project/" ++ toString project_id ++ "/repositories",
    none⟩],
   if status_code = 200 then .ok body else .error .assertionError)

/-- Embedding of `SemaphoreUIClient.create_project_repository`: POST the full
field set, assert status 204, try to parse the body as a `Repository`; on a
body parse failure relist the project repositories and return element `[0]`
of the entries whose name equals the submitted name. -/
def create_project_repository (api : String) (project_id : Int) (name : String)
    (git_url : String) (git_branch : String) (ssh_key_id : Int)
    (srv : CreateEnv Repository) : List Request × Except PyError Repository :=
  let payload : Json := .obj [("name", .str name),
    ("project_id", .num project_id), ("git_url", .str git_url),
    ("git_branch", .str git_branch), ("ssh_key_id", .num ssh_key_id)]
  let postReq : Request :=
    ⟨Method.post, api ++ "/project/" ++ toString project_id ++ "/repositories",
      some payload⟩
  let rest : List Request × Except PyError Repository :=
    if srv.createStatus ≠ 204 then ([], .error .assertionError)
    else
      match srv.createBody with
      | some r => ([], .ok r)
      | none =>
        let listed :=
          get_project_repositories api project_id srv.listStatus srv.listBody
        match listed.2 with
        | .error e => (listed.1, .error e)
        | .ok repos =>
          match repos.filter (fun r => r.name == name) with
          | [] => (listed.1, .error .indexError)
          | r :: _ => (listed.1, .ok r)
  (postReq :: rest.1, rest.2)

/-- A secret value attached to an environment (dataclass `Secret`). -/
structure Secret where
  id : Int
  name : String
  type : String
deriving DecidableEq, Repr

/-- The `Environment` record (dataclass `Environment`, without the `client`
back-reference). -/
structure Environment where
  id : Int
  name : String
  project_id : Int
  password : String
  json : String
  env : String
  secrets : List Secret
deriving DecidableEq, Repr

/-- Embedding of `SemaphoreUIClient.get_project_environments`: GET the
project environment collection, assert status 200, deserialize the list. -/
def get_project_environments (api : String) (project_id : Int)
    (status_code : Nat) (body : List Environment) :
    List Request × Except PyError (List Environment) :=
  ([⟨Method.get, api ++ "/project/" ++ toString project_id ++ "/environment",
    none⟩],
   if status_code = 200 then .ok body else .error .assertionError)

/-- Embedding of `SemaphoreUIClient.create_project_environment`: POST the
field set (the source sends the JSON literal `None` for the password field,
ignoring the `password` argument), assert status 204, try to parse the body
as an `Environment`; on a body parse failure relist the project environments
and return element `[0]` of the entries whose name equals the submitted
name.  The `secrets` argument is a list of JSON dicts in the source and is
modelled as `List Json`. -/
def create_project_environment (api : String) (project_id : Int)
    (name : String) (password : String) (json : String) (env : String)
    (secrets : List Json) (srv : CreateEnv Environment) :
    List Request × Except PyError Environment :=
  let payload : Json := .obj [("name", .str name),
    ("project_id", .num project_id), ("password", .null),
    ("json", .str json), ("env", .str env), ("secrets", .arr secrets)]
  let postReq : Request :=
    ⟨Method.post, api ++ "/project/" ++ toString project_id ++ "/environment",
      some payload⟩
  let rest : List Request × Except PyError Environment :=
    if srv.createStatus ≠ 204 then ([], .error .assertionError)
    else
      match srv.createBody with
      | some envRecord => ([], .ok envRecord)
      | none =>
        let listed :=
          get_project_environments api project_id srv.listStatus srv.listBody
        match listed.2 with
        | .error e => (listed.1, .error e)
        | .ok envs =>
          match envs.filter (fun x => x.name == name) with
          | [] => (listed.1, .error .indexError)
          | x :: _ => (listed.1, .ok x)
  (postReq :: rest.1, rest.2)

/-- Embedding of `SemaphoreUIClient.delete_token`: DELETE the token and
accept status 204 or 404 (the source comment: 404 if the token was already
expired). -/
def delete_token (api : String) (id : String) (status_code : Nat) :
    List Request × Except PyError Unit :=
  ([⟨Method.delete, api ++ "/user/tokens/" ++ id, none⟩],
   if status_code = 204 ∨ status_code = 404 then .ok () else .error .assertionError)

/-- Embedding of `SemaphoreUIClient.delete_project`: DELETE, assert 204. -/
def delete_project (api : String) (id : Int) (status_code : Nat) :
    List Request × Except PyError Unit :=
  ([⟨Method.delete, api ++ "/project/" ++ toString id, none⟩],
   if status_code = 204 then .ok () else .error .assertionError)

/-- Embedding of `SemaphoreUIClient.remove_project_user`: DELETE, assert 204. -/
def remove_project_user (api : String) (id : Int) (user_id : Int)
    (status_code : Nat) : List Request × Except PyError Unit :=
  ([⟨Method.delete, api ++ "/project/" ++ toString id ++ "/users/" ++
    toString user_id, none⟩],
   if status_code = 204 then .ok () else .error .assertionError)

/-- Embedding of `SemaphoreUIClient.delete_project_integration`: DELETE,
assert 204. -/
def delete_project_integration (api : String) (project_id : Int) (id : Int)
    (status_code : Nat) : List Request × Except PyError Unit :=
  ([⟨Method.delete, api ++ "/project/" ++ toString project_id ++
    "/integrations/" ++ toString id, none⟩],
   if status_code = 204 then .ok () else .error .assertionError)

/-- Embedding of `SemaphoreUIClient.delete_project_key`: DELETE, assert 204. -/
def delete_project_key (api : String) (project_id : Int) (id : Int)
    (status_code : Nat) : List Request × Except PyError Unit :=
  ([⟨Method.delete, api ++ "/project/" ++ toString project_id ++ "/keys/" ++
    toString id, none⟩],
   if status_code = 204 then .ok () else .error .assertionError)

/-- Embedding of `SemaphoreUIClient.delete_project_repository`: DELETE,
assert 204. -/
def delete_project_repository (api : String) (project_id : Int) (id : Int)
    (status_code : Nat) : List Request × Except PyError Unit :=
  ([⟨Method.delete, api ++ "/project/" ++ toString project_id ++
    "/repositories/" ++ toString id, none⟩],
   if status_code = 204 then .ok () else .error .assertionError)

/-- Embedding of `SemaphoreUIClient.delete_project_environment`: DELETE,
assert 204. -/
def delete_project_environment (api : String) (project_id : Int) (id : Int)
    (status_code : Nat) : List Request × Except PyError Unit :=
  ([⟨Method.delete, api ++ "/project/" ++ toString project_id ++
    "/environment/" ++ toString id, none⟩],
   if status_code = 204 then .ok () else .error .assertionError)

/-- Embedding of `SemaphoreUIClient.delete_project_view`: DELETE, assert 204. -/
def delete_project_view (api : String) (project_id : Int) (id : Int)
    (status_code : Nat) : List Request × Except PyError Unit :=
  ([⟨Method.delete, api ++ "/project/" ++ toString project_id ++ "/views/" ++
    toString id, none⟩],
   if status_code = 204 then .ok () else .error .assertionError)

/-- Embedding of `SemaphoreUIClient.delete_project_inventory`: DELETE,
assert 204. -/
def delete_project_inventory (api : String) (project_id : Int) (id : Int)
    (status_code : Nat) : List Request × Except PyError Unit :=
  ([⟨Method.delete, api ++ "/project/" ++ toString project_id ++
    "/inventory/" ++ toString id, none⟩],
   if status_code = 204 then .ok () else .error .assertionError)

/-- Embedding of `SemaphoreUIClient.delete_project_template`: DELETE,
assert 204. -/
def delete_project_template (api : String) (project_id : Int) (id : Int)
    (status_code : Nat) : List Request × Except PyError Unit :=
  ([⟨Method.delete, api ++ "/project/" ++ toString project_id ++
    "/templates/" ++ toString id, none⟩],
   if status_code = 204 then .ok () else .error .assertionError)

/-- Embedding of `SemaphoreUIClient.delete_project_schedule`: DELETE,
assert 204. -/
def delete_project_schedule (api : String) (project_id : Int)
    (schedule_id : Int) (status_code : Nat) :
    List Request × Except PyError Unit :=
  ([⟨Method.delete, api ++ "/project/" ++ toString project_id ++
    "/schedules/" ++ toString schedule_id, none⟩],
   if status_code = 204 then .ok () else .error .assertionError)

/-- Embedding of `SemaphoreUIClient.delete_project_task`: DELETE, assert 204. -/
def delete_project_task (api : String) (project_id : Int) (id : Int)
    (status_code : Nat) : List Request × Except PyError Unit :=
  ([⟨Method.delete, api ++ "/project/" ++ toString project_id ++ "/tasks/" ++
    toString id, none⟩],
   if status_code = 204 then .ok () else .error .assertionError)

/-- Optional string argument rendered into JSON: Python `None` becomes JSON
`null`, a string becomes a JSON string. -/
def jsonOfOptStr : Option String → Json
  | none => .null
  | some s => .str s

/-- Embedding of `SemaphoreUIClient.update_project`: PUT the full field set
to the project URL and assert status 204. -/
def update_project (api : String) (id : Int) (name : String) (alert : Bool)
    (alert_chat : String) (max_parallel_tasks : Int) (type : Option String)
    (status_code : Nat) : List Request × Except PyError Unit :=
  ([⟨Method.put, api ++ "/project/" ++ toString id,
    some (.obj [("name", .str name), ("alert", .bool alert),
      ("alert_chat", .str alert_chat),
      ("max_parallel_tasks", .num max_parallel_tasks),
      ("type", jsonOfOptStr type)])⟩],
   if status_code = 204 then .ok () else .error .assertionError)

/-- The `User` record (dataclass `User`): `user_id` and `role`; its `id`
property returns `user_id`. -/
structure User where
  user_id : Int
  role : String
deriving DecidableEq, Repr

/-- Embedding of the `User.id` property, which returns `user_id`. -/
def User.id (u : User) : Int := u.user_id

/-- Embedding of `SemaphoreUIClient.update_project_user`: PUT the user fields
(the source passes `user.to_json()`, the dataclass-json serialization of the
two fields `user_id` and `role`, modelled here as the corresponding JSON
object) to the project user URL built from `user.id`, and assert status
204. -/
def update_project_user (api : String) (id : Int) (user : User)
    (status_code : Nat) : List Request × Except PyError Unit :=
  ([⟨Method.put, api ++ "/project/" ++ toString id ++ "/users/" ++
    toString user.id,
    some (.obj [("user_id", .num user.user_id), ("role", .str user.role)])⟩],
   if status_code = 204 then .ok () else .error .assertionError)

/-- Embedding of `SemaphoreUIClient.update_project_integration`: PUT the full
field set to the integration URL and assert status 204. -/
def update_project_integration (api : String) (project_id : Int) (id : Int)
    (name : String) (template_id : Int) (status_code : Nat) :
    List Request × Except PyError Unit :=
  ([⟨Method.put, api ++ "/project/" ++ toString project_id ++
    "/integrations/" ++ toString id,
    some (.obj [("project_id", .num project_id), ("name", .str name),
      ("template_id", .num template_id)])⟩],
   if status_code = 204 then .ok () else .error .assertionError)

/-- Embedding of `SemaphoreUIClient.update_project_schedule`.  Note the
source issues a POST to the schedules collection URL (not a PUT to the
schedule URL) and asserts status 201, the creation status, even though its
docstring reads `Update a project schedule`. -/
def update_project_schedule (api : String) (project_id : Int)
    (schedule_id : Int) (template_id : Int) (name : String)
    (cron_format : String) (active : Bool) (status_code : Nat) :
    List Request × Except PyError Unit :=
  ([⟨Method.post, api ++ "/project/" ++ toString project_id ++ "/schedules",
    some (.obj [("id", .num schedule_id), ("project_id", .num project_id),
      ("template_id", .num template_id), ("name", .str name),
      ("cron_format", .str cron_format), ("active", .bool active)])⟩],
   if status_code = 201 then .ok () else .error .assertionError)

/-- The fields of a task as they appear in the API payload.  The source
comment on the `Task` dataclass notes that `project_id` is not included in
the api type, so the payload type has no such field. -/
structure TaskApi where
  id : Int
  template_id : Int
  status : String
  debug : Bool
  playbook : String
  environment : String
  secret : String
  limit : String
  git_branch : String
  message : String
deriving DecidableEq, Repr

/-- The `Task` record (dataclass `Task`, without the `client`
back-reference): the API payload fields plus the `project_id` supplied by
the client as context. -/
structure Task where
  id : Int
  template_id : Int
  status : String
  debug : Bool
  playbook : String
  environment : String
  secret : String
  limit : String
  git_branch : String
  message : String
  project_id : Int
deriving DecidableEq, Repr

/-- Construction `Task(**task, project_id=project_id, client=self)` from the
source: the payload fields plus the contextual `project_id`. -/
def Task.ofApi (t : TaskApi) (project_id : Int) : Task :=
  ⟨t.id, t.template_id, t.status, t.debug, t.playbook, t.environment,
    t.secret, t.limit, t.git_branch, t.message, project_id⟩

/-- Embedding of `SemaphoreUIClient.get_project_tasks`: GET the project
tasks collection, assert status 200, build each `Task` from the payload with
the callers `project_id` as context. -/
def get_project_tasks (api : String) (project_id : Int) (status_code : Nat)
    (body : List TaskApi) : List Request × Except PyError (List Task) :=
  ([⟨Method.get, api ++ "/project/" ++ toString project_id ++ "/tasks", none⟩],
   if status_code = 200 then
     .ok (body.map (fun t => Task.ofApi t project_id))
   else .error .assertionError)

/-- Embedding of `SemaphoreUIClient.get_project_task`: GET a single task,
assert status 200, build the `Task` from the payload with the callers
`project_id` as context. -/
def get_project_task (api : String) (project_id : Int) (id : Int)
    (status_code : Nat) (body : TaskApi) : List Request × Except PyError Task :=
  ([⟨Method.get, api ++ "/project/" ++ toString project_id ++ "/tasks/" ++
    toString id, none⟩],
   if status_code = 200 then .ok (Task.ofApi body project_id)
   else .error .assertionError)

/-- The `Integration` record (dataclass `Integration`, without the `client`
back-reference). -/
structure Integration where
  id : Int
  name : String
  project_id : Int
  template_id : Int
deriving DecidableEq, Repr

/-- Text that Python string interpolation produces for the builtin function
`id`. -/
def pythonBuiltinIdRepr : String := "<built-in function id>"

/-- Embedding of `SemaphoreUIClient.create_project_integrations`.  The
source builds the URL with the f-string
`f"{self.api_endpoint}/project/{id}integrations"`: the interpolated name
`id` is not the `project_id` parameter but the Python builtin function `id`,
and no slash precedes `integrations`, so the URL is the text of the builtin
followed directly by `integrations`.  The source then asserts status 200 and
parses the body as an `Integration` (a parse failure raises `ValueError`). -/
def create_project_integrations (api : String) (project_id : Int)
    (name : String) (template_id : Int) (status_code : Nat)
    (body : Option Integration) : List Request × Except PyError Integration :=
  ([⟨Method.post, api ++ "/project/" ++ pythonBuiltinIdRepr ++ "integrations",
    some (.obj [("project_id", .num project_id), ("name", .str name),
      ("template_id", .num template_id)])⟩],
   if status_code = 200 then
     match body with
     | some i => .ok i
     | none => .error (.valueError "response body did not parse as an Integration")
   else .error .assertionError)

/-- The `Template` record (dataclass `Template`, without the `client`
back-reference).  The `survey_vars` field is a list of JSON dicts in the
source and is modelled as `List Json`. -/
structure Template where
  id : Int
  project_id : Int
  repository_id : Int
  inventory_id : Int
  environment_id : Int
  view_id : Int
  name : String
  playbook : String
  arguments : String
  description : String
  allow_override_args_in_task : Bool
  suppress_success_alerts : Bool
  app : String
  survey_vars : List Json
  type : String
  start_version : String
  build_template_id : Int
  autorun : Bool
  vault_key_id : Int
  last_task : Int
  tasks : Int

/-- Embedding of `SemaphoreUIClient.get_project_templates`: GET the project
templates collection, assert status 200, deserialize the list. -/
def get_project_templates (api : String) (project_id : Int)
    (status_code : Nat) (body : List Template) :
    List Request × Except PyError (List Template) :=
  ([⟨Method.get, api ++ "/project/" ++ toString project_id ++ "/templates",
    none⟩],
   if status_code = 200 then .ok body else .error .assertionError)

/-- Modelled from the spec: a consistent server holding a project templates
collection answers a fetch by id with the collection entry bearing that id,
when one exists.  This server-side behaviour backs the round-trip property
of listing then fetching. -/
def serverGetTemplate (collection : List Template) (id : Int) :
    Option Template :=
  collection.find? (fun t => t.id == id)

/-- Modelled from the spec: the source module has no single-template fetch,
only the collection listing; the spec Get contract (`get_<resource>(parent_id,
id)` issues a GET for the single resource, requires status 200, and
deserializes the body) is modelled here for templates.  The body is the
record the server answers with, `none` when the resource is absent. -/
def get_project_template (api : String) (project_id : Int) (id : Int)
    (status_code : Nat) (body : Option Template) :
    List Request × Except PyError Template :=
  ([⟨Method.get, api ++ "/project/" ++ toString project_id ++ "/templates/" ++
    toString id, none⟩],
   if status_code = 200 then
     match body with
     | some t => .ok t
     | none => .error (.valueError "response body did not parse as a Template")
   else .error .assertionError)

/-- Server data consumed by a template run: the repository listing response,
the status of the task creation POST, the id carried by its thin response
envelope, and the response to the final task fetch. -/
structure RunEnv where
  repoStatus : Nat
  repos : List Repository
  createStatus : Nat
  createdTaskId : Int
  getStatus : Nat
  getBody : TaskApi

/-- Modelled from the spec: the source module defines `Template` without a
`run` method, while the spec describes `Template.run(options)` (options:
debug, dry_run, diff, message, limit, environment).  Per the spec, the owning
project repositories are listed first to resolve the git branch of the
template repository; then the task creation POST is issued (its response is
a thin envelope carrying only an id, acknowledged with the creation status
201); then the full `Task` is fetched by that id and returned.  The
repository listing and the task fetch reuse the embeddings of the source
methods `get_project_repositories` and `get_project_task`. -/
def Template.run (t : Template) (api : String) (debug : Bool)
    (dry_run : Bool) (diff : Bool) (message : String) (limit : String)
    (environment : String) (srv : RunEnv) : List Request × Except PyError Task :=
  let listed := get_project_repositories api t.project_id srv.repoStatus srv.repos
  match listed.2 with
  | .error e => (listed.1, .error e)
  | .ok repos =>
    match repos.find? (fun r => r.id == t.repository_id) with
    | none => (listed.1, .error .indexError)
    | some repo =>
      let postReq : Request :=
        ⟨Method.post, api ++ "/project/" ++ toString t.project_id ++ "/tasks",
          some (.obj [("template_id", .num t.id), ("debug", .bool debug),
            ("dry_run", .bool dry_run), ("diff", .bool diff),
            ("message", .str message), ("limit", .str limit),
            ("environment", .str environment),
            ("git_branch", .str repo.git_branch)])⟩
      if srv.createStatus = 201 then
        let fetched := get_project_task api t.project_id srv.createdTaskId
          srv.getStatus srv.getBody
        (listed.1 ++ postReq :: fetched.1, fetched.2)
      else (listed.1 ++ [postReq], .error .assertionError)

/-- Claim C2: a call `create_project_key(project_id, name, "ssh",
override_secret, login_password, ssh=(a,b,c))` sends a POST whose payload
carries both credential sub-objects, with `ssh` holding login `a`,
passphrase `b`, private_key `c` and `login_password` holding empty strings;
symmetrically, a call with `key_type="login_password"` and
`login_password=(l,p)` sends `login_password` holding `l` and `p` and `ssh`
holding empty strings.  The POST is the first request issued, whatever the
server answers. -/
theorem create_key_sends_both_credential_objects (api : String)
    (project_id : Int) (name : String) (override_secret : Bool)
    (a b c l p : String) (lpArg : Option (String × String))
    (sshArg : Option (String × String × String)) (srv1 srv2 : CreateEnv Key) :
    (create_project_key api project_id name "ssh" override_secret lpArg
        (some (a, b, c)) srv1).1.head? =
      some ⟨Method.post, api ++ "/project/" ++ toString project_id ++ "/keys",
        some (.obj [("id", .num 0), ("project_id", .num project_id),
          ("name", .str name), ("type", .str "ssh"),
          ("override_secret", .bool override_secret),
          ("login_password", .obj [("login", .str ""), ("password", .str "")]),
          ("ssh", .obj [("login", .str a), ("passphrase", .str b),
            ("private_key", .str c)])])⟩
    ∧ (create_project_key api project_id name "login_password" override_secret
        (some (l, p)) sshArg srv2).1.head? =
      some ⟨Method.post, api ++ "/project/" ++ toString project_id ++ "/keys",
        some (.obj [("id", .num 0), ("project_id", .num project_id),
          ("name", .str name), ("type", .str "login_password"),
          ("override_secret", .bool override_secret),
          ("login_password", .obj [("login", .str l), ("password", .str p)]),
          ("ssh", .obj [("login", .str ""), ("passphrase", .str ""),
            ("private_key", .str "")])])⟩ := by
  constructor <;> simp +decide [create_project_key]

/-- Claim C3: `create_project_key` fails with a `ValueError` and issues no
request at all when the discriminator is outside the enumerated set, when
`key_type` is `ssh` but the ssh tuple is absent, or when `key_type` is
`login_password` but the login_password tuple is absent. -/
theorem create_key_invalid_input_sends_no_request (api : String)
    (project_id : Int) (name : String) (key_type : String)
    (override_secret : Bool) (login_password : Option (String × String))
    (ssh : Option (String × String × String)) (srv : CreateEnv Key)
    (h : (key_type ≠ "ssh" ∧ key_type ≠ "login_password")
      ∨ (key_type = "ssh" ∧ ssh = none)
      ∨ (key_type = "login_password" ∧ login_password = none)) :
    (create_project_key api project_id name key_type override_secret
      login_password ssh srv).1 = []
    ∧ ∃ msg, (create_project_key api project_id name key_type override_secret
      login_password ssh srv).2 = .error (.valueError msg) := by
  rcases h with ⟨h1, h2⟩ | ⟨h1, h2⟩ | ⟨h1, h2⟩
  · unfold create_project_key
    rw [if_pos ⟨h1, h2⟩]
    exact ⟨rfl, _, rfl⟩
  · subst h1; subst h2
    refine ⟨?_, ?_⟩ <;> simp +decide [create_project_key]
  · subst h1; subst h2
    refine ⟨?_, ?_⟩ <;> simp +decide [create_project_key]

/-- Witness for claim C3 at the concrete input of the spec example: the
discriminator `bogus` is rejected with no request issued. -/
theorem create_key_invalid_input_sends_no_request_witness :
    (create_project_key "http://h/api" 1 "k" "bogus" false none none
      ⟨204, none, 200, []⟩).1 = []
    ∧ ∃ msg, (create_project_key "http://h/api" 1 "k" "bogus" false none none
      ⟨204, none, 200, []⟩).2 = .error (.valueError msg) :=
  create_key_invalid_input_sends_no_request "http://h/api" 1 "k" "bogus"
    false none none ⟨204, none, 200, []⟩ (Or.inl (by decide))

/-- Claim C1: for the create operations on key, repository and environment,
when the POST is acknowledged (status 204) but its body fails to parse as a
record, the operation re-lists the children of the parent project of that
resource type (the trace is exactly the POST followed by the list GET) and
returns the first listed entry whose name equals the submitted name; in
particular, when exactly one listed record bears the submitted name, that
record is returned. -/
theorem create_fallback_returns_first_name_match (api : String)
    (kpid : Int) (kname : String) (os : Bool) (a b c : String)
    (klist : List Key) (k : Key) (ks : List Key)
    (rpid : Int) (rname gurl gbr : String) (skid : Int)
    (rlist : List Repository) (r : Repository) (rs : List Repository)
    (epid : Int) (ename pw js ev : String) (secrets : List Json)
    (elist : List Environment) (e : Environment) (es : List Environment)
    (hk : klist.filter (fun x => x.name == kname) = k :: ks)
    (hr : rlist.filter (fun x => x.name == rname) = r :: rs)
    (he : elist.filter (fun x => x.name == ename) = e :: es) :
    ((create_project_key api kpid kname "ssh" os none (some (a, b, c))
        ⟨204, none, 200, klist⟩).2 = .ok k
      ∧ (create_project_key api kpid kname "ssh" os none (some (a, b, c))
        ⟨204, none, 200, klist⟩).1.map (fun q => (q.method, q.url)) =
        [(Method.post, api ++ "/project/" ++ toString kpid ++ "/keys"),
         (Method.get, api ++ "/project/" ++ toString kpid ++ "/keys")])
    ∧ ((create_project_repository api rpid rname gurl gbr skid
        ⟨204, none, 200, rlist⟩).2 = .ok r
      ∧ (create_project_repository api rpid rname gurl gbr skid
        ⟨204, none, 200, rlist⟩).1.map (fun q => (q.method, q.url)) =
        [(Method.post, api ++ "/project/" ++ toString rpid ++ "/repositories"),
         (Method.get, api ++ "/project/" ++ toString rpid ++ "/repositories")])
    ∧ ((create_project_environment api epid ename pw js ev secrets
        ⟨204, none, 200, elist⟩).2 = .ok e
      ∧ (create_project_environment api epid ename pw js ev secrets
        ⟨204, none, 200, elist⟩).1.map (fun q => (q.method, q.url)) =
        [(Method.post, api ++ "/project/" ++ toString epid ++ "/environment"),
         (Method.get, api ++ "/project/" ++ toString epid ++ "/environment")]) := by
  refine ⟨⟨?_, ?_⟩, ⟨?_, ?_⟩, ⟨?_, ?_⟩⟩ <;>
    simp +decide [create_project_key, create_project_repository,
      create_project_environment, get_project_keys, get_project_repositories,
      get_project_environments, hk, hr, he]

/-- Witness for claim C1 at concrete inputs: each listing contains exactly
one record bearing the submitted name, and the fallback returns it. -/
theorem create_fallback_returns_first_name_match_witness :
    ((create_project_key "http://h/api" 1 "mykey" "ssh" false none
        (some ("u", "pp", "pk"))
        ⟨204, none, 200, [⟨7, "mykey", "ssh", 1, "", false, ⟨"", ""⟩,
          ⟨"u", "pp", "pk"⟩⟩]⟩).2 =
      .ok ⟨7, "mykey", "ssh", 1, "", false, ⟨"", ""⟩, ⟨"u", "pp", "pk"⟩⟩
      ∧ (create_project_key "http://h/api" 1 "mykey" "ssh" false none
        (some ("u", "pp", "pk"))
        ⟨204, none, 200, [⟨7, "mykey", "ssh", 1, "", false, ⟨"", ""⟩,
          ⟨"u", "pp", "pk"⟩⟩]⟩).1.map (fun q => (q.method, q.url)) =
        [(Method.post, "http://h/api" ++ "/project/" ++ toString (1 : Int) ++ "/keys"),
         (Method.get, "http://h/api" ++ "/project/" ++ toString (1 : Int) ++ "/keys")])
    ∧ ((create_project_repository "http://h/api" 2 "myrepo" "git://x" "main" 7
        ⟨204, none, 200, [⟨8, "myrepo", 2, "git://x", "main", 7⟩]⟩).2 =
      .ok ⟨8, "myrepo", 2, "git://x", "main", 7⟩
      ∧ (create_project_repository "http://h/api" 2 "myrepo" "git://x" "main" 7
        ⟨204, none, 200, [⟨8, "myrepo", 2, "git://x", "main", 7⟩]⟩).1.map
          (fun q => (q.method, q.url)) =
        [(Method.post, "http://h/api" ++ "/project/" ++ toString (2 : Int) ++ "/repositories"),
         (Method.get, "http://h/api" ++ "/project/" ++ toString (2 : Int) ++ "/repositories")])
    ∧ ((create_project_environment "http://h/api" 3 "myenv" "pw" "vars" "envtext" []
        ⟨204, none, 200, [⟨9, "myenv", 3, "", "vars", "envtext", []⟩]⟩).2 =
      .ok ⟨9, "myenv", 3, "", "vars", "envtext", []⟩
      ∧ (create_project_environment "http://h/api" 3 "myenv" "pw" "vars" "envtext" []
        ⟨204, none, 200, [⟨9, "myenv", 3, "", "vars", "envtext", []⟩]⟩).1.map
          (fun q => (q.method, q.url)) =
        [(Method.post, "http://h/api" ++ "/project/" ++ toString (3 : Int) ++ "/environment"),
         (Method.get, "http://h/api" ++ "/project/" ++ toString (3 : Int) ++ "/environment")]) :=
  create_fallback_returns_first_name_match "http://h/api" 1 "mykey" false
    "u" "pp" "pk" _ _ [] 2 "myrepo" "git://x" "main" 7 _ _ [] 3 "myenv" "pw"
    "vars" "envtext" [] _ _ [] rfl rfl rfl

/-- Claim C10: in the fallback path of the create operations on key,
repository and environment (POST acknowledged with 204 but unparsable body,
relist succeeding with status 200), the operation fails with an uncaught
`IndexError` exactly when no listed child bears the submitted name; with at
least one match it returns a record instead. -/
theorem create_fallback_index_error_iff_no_name_match (api : String)
    (kpid : Int) (kname : String) (os : Bool) (a b c : String)
    (klist : List Key)
    (rpid : Int) (rname gurl gbr : String) (skid : Int)
    (rlist : List Repository)
    (epid : Int) (ename pw js ev : String) (secrets : List Json)
    (elist : List Environment) :
    ((create_project_key api kpid kname "ssh" os none (some (a, b, c))
        ⟨204, none, 200, klist⟩).2 = .error .indexError
      ↔ klist.filter (fun x => x.name == kname) = [])
    ∧ ((create_project_repository api rpid rname gurl gbr skid
        ⟨204, none, 200, rlist⟩).2 = .error .indexError
      ↔ rlist.filter (fun x => x.name == rname) = [])
    ∧ ((create_project_environment api epid ename pw js ev secrets
        ⟨204, none, 200, elist⟩).2 = .error .indexError
      ↔ elist.filter (fun x => x.name == ename) = []) := by
  refine ⟨?_, ?_, ?_⟩
  · rcases hk : klist.filter (fun x => x.name == kname) with _ | ⟨k, ks⟩ <;>
      simp +decide [create_project_key, get_project_keys, hk]
  · rcases hr : rlist.filter (fun x => x.name == rname) with _ | ⟨r, rs⟩ <;>
      simp +decide [create_project_repository, get_project_repositories, hr]
  · rcases he : elist.filter (fun x => x.name == ename) with _ | ⟨e, es⟩ <;>
      simp +decide [create_project_environment, get_project_environments, he]

/-- Helper: a status check of the shape used by every delete embedding
succeeds exactly when its condition holds. -/
theorem ite_ok_iff (c : Prop) [Decidable c] :
    ((if c then (Except.ok () : Except PyError Unit)
      else .error .assertionError) = .ok ()) ↔ c := by
  by_cases h : c <;> simp [h]

/-- Claim C4: every delete operation succeeds exactly on status 204, except
`delete_token`, which succeeds exactly on status 204 or 404; in particular a
404 fails every delete operation other than `delete_token`. -/
theorem delete_success_codes (api : String) (tid : String) (pid i uid : Int)
    (status_code : Nat) :
    ((delete_token api tid status_code).2 = .ok ()
      ↔ (status_code = 204 ∨ status_code = 404))
    ∧ ((delete_project api pid status_code).2 = .ok () ↔ status_code = 204)
    ∧ ((remove_project_user api pid uid status_code).2 = .ok ()
      ↔ status_code = 204)
    ∧ ((delete_project_integration api pid i status_code).2 = .ok ()
      ↔ status_code = 204)
    ∧ ((delete_project_key api pid i status_code).2 = .ok ()
      ↔ status_code = 204)
    ∧ ((delete_project_repository api pid i status_code).2 = .ok ()
      ↔ status_code = 204)
    ∧ ((delete_project_environment api pid i status_code).2 = .ok ()
      ↔ status_code = 204)
    ∧ ((delete_project_view api pid i status_code).2 = .ok ()
      ↔ status_code = 204)
    ∧ ((delete_project_inventory api pid i status_code).2 = .ok ()
      ↔ status_code = 204)
    ∧ ((delete_project_template api pid i status_code).2 = .ok ()
      ↔ status_code = 204)
    ∧ ((delete_project_schedule api pid i status_code).2 = .ok ()
      ↔ status_code = 204)
    ∧ ((delete_project_task api pid i status_code).2 = .ok ()
      ↔ status_code = 204) :=
  ⟨ite_ok_iff _, ite_ok_iff _, ite_ok_iff _, ite_ok_iff _, ite_ok_iff _,
   ite_ok_iff _, ite_ok_iff _, ite_ok_iff _, ite_ok_iff _, ite_ok_iff _,
   ite_ok_iff _, ite_ok_iff _⟩

/-- Claim C8: every `Task` returned by `get_project_tasks` or
`get_project_task` carries the `project_id` argument passed by the caller;
the API payload type `TaskApi` has no project id field at all, so the value
is client-side context, never server data. -/
theorem tasks_carry_contextual_project_id (api : String) (project_id : Int)
    (id : Int) (status_code : Nat) (body : List TaskApi) (single : TaskApi)
    (ts : List Task) (t : Task)
    (hlist : (get_project_tasks api project_id status_code body).2 = .ok ts)
    (hmem : t ∈ ts)
    (u : Task)
    (hget : (get_project_task api project_id id status_code single).2 = .ok u) :
    t.project_id = project_id ∧ u.project_id = project_id := by
  by_cases h : status_code = 200
  · subst h
    simp only [get_project_tasks, if_pos rfl] at hlist
    simp only [get_project_task, if_pos rfl] at hget
    cases hlist
    cases hget
    rcases List.mem_map.1 hmem with ⟨x, _, hx⟩
    exact ⟨by rw [← hx]; rfl, rfl⟩
  · simp only [get_project_tasks, if_neg h] at hlist
    cases hlist

/-- Witness for claim C8 at a concrete input: a one-element task listing and
a single task fetch, both made with project id 5, yield records whose
`project_id` is 5. -/
theorem tasks_carry_contextual_project_id_witness :
    Task.ofApi ⟨1, 2, "success", false, "p.yml", "", "", "", "main", ""⟩ 5 ∈
      [Task.ofApi ⟨1, 2, "success", false, "p.yml", "", "", "", "main", ""⟩ 5]
    ∧ (Task.ofApi ⟨1, 2, "success", false, "p.yml", "", "", "", "main", ""⟩ 5).project_id = 5
    ∧ (Task.ofApi ⟨3, 2, "error", true, "q.yml", "", "", "", "dev", ""⟩ 5).project_id = 5 :=
  ⟨List.mem_singleton.2 rfl,
    tasks_carry_contextual_project_id "http://h/api" 5 3 200
      [⟨1, 2, "success", false, "p.yml", "", "", "", "main", ""⟩]
      ⟨3, 2, "error", true, "q.yml", "", "", "", "dev", ""⟩
      [Task.ofApi ⟨1, 2, "success", false, "p.yml", "", "", "", "main", ""⟩ 5]
      (Task.ofApi ⟨1, 2, "success", false, "p.yml", "", "", "", "main", ""⟩ 5)
      rfl (List.mem_singleton.2 rfl)
      (Task.ofApi ⟨3, 2, "error", true, "q.yml", "", "", "", "dev", ""⟩ 5) rfl⟩

/-- Helper: in a list whose mapped ids are distinct, searching by the id of
a member finds exactly that member. -/
theorem find_by_id_of_mem_of_nodup (l : List Template) (t : Template)
    (h : t ∈ l) (hnd : (l.map Template.id).Nodup) :
    l.find? (fun x => x.id == t.id) = some t := by
  induction l with
  | nil => cases h
  | cons x xs ih =>
    simp only [List.map_cons, List.nodup_cons] at hnd
    rcases List.mem_cons.1 h with rfl | hmem
    · exact List.find?_cons_of_pos _ (by simp)
    · have hne : x.id ≠ t.id := by
        intro hEq
        exact hnd.1 (hEq ▸ List.mem_map_of_mem Template.id hmem)
      rw [List.find?_cons_of_neg _ (by simp [hne])]
      exact ih hmem hnd.2

/-- Claim C6: after listing the templates of a project (ids distinct in the
collection, as resource ids are unique), fetching any listed template by its
id from the same server collection yields a record whose id and name are
identical to those of the listed entry. -/
theorem template_list_then_get_roundtrip (api : String) (project_id : Int)
    (collection : List Template) (ts : List Template) (t : Template)
    (hlist : (get_project_templates api project_id 200 collection).2 = .ok ts)
    (hmem : t ∈ ts)
    (hnd : (collection.map Template.id).Nodup) :
    ∃ u, (get_project_template api project_id t.id 200
        (serverGetTemplate collection t.id)).2 = .ok u
      ∧ u.id = t.id ∧ u.name = t.name := by
  simp only [get_project_templates, if_pos rfl] at hlist
  cases hlist
  refine ⟨t, ?_, rfl, rfl⟩
  rw [serverGetTemplate, find_by_id_of_mem_of_nodup collection t hmem hnd]
  rfl

/-- Witness for claim C6 at a concrete two-template collection with distinct
ids: fetching the first listed template by id returns a record with its id
and name. -/
theorem template_list_then_get_roundtrip_witness :
    ∃ u, (get_project_template "http://h/api" 9
        (Template.mk 1 9 4 3 2 5 "tmpl-a" "a.yml" "" "" false false
          "ansible" [] "" "" 0 false 0 0 0).id 200
        (serverGetTemplate
          [Template.mk 1 9 4 3 2 5 "tmpl-a" "a.yml" "" "" false false
            "ansible" [] "" "" 0 false 0 0 0,
           Template.mk 2 9 4 3 2 5 "tmpl-b" "b.yml" "" "" false false
            "ansible" [] "" "" 0 false 0 0 0]
          (Template.mk 1 9 4 3 2 5 "tmpl-a" "a.yml" "" "" false false
            "ansible" [] "" "" 0 false 0 0 0).id)).2 = .ok u
      ∧ u.id = (Template.mk 1 9 4 3 2 5 "tmpl-a" "a.yml" "" "" false false
          "ansible" [] "" "" 0 false 0 0 0).id
      ∧ u.name = (Template.mk 1 9 4 3 2 5 "tmpl-a" "a.yml" "" "" false false
          "ansible" [] "" "" 0 false 0 0 0).name :=
  template_list_then_get_roundtrip "http://h/api" 9
    [Template.mk 1 9 4 3 2 5 "tmpl-a" "a.yml" "" "" false false
      "ansible" [] "" "" 0 false 0 0 0,
     Template.mk 2 9 4 3 2 5 "tmpl-b" "b.yml" "" "" false false
      "ansible" [] "" "" 0 false 0 0 0]
    [Template.mk 1 9 4 3 2 5 "tmpl-a" "a.yml" "" "" false false
      "ansible" [] "" "" 0 false 0 0 0,
     Template.mk 2 9 4 3 2 5 "tmpl-b" "b.yml" "" "" false false
      "ansible" [] "" "" 0 false 0 0 0]
    (Template.mk 1 9 4 3 2 5 "tmpl-a" "a.yml" "" "" false false
      "ansible" [] "" "" 0 false 0 0 0)
    rfl (List.mem_cons_self _ _) (by decide)

/-- Claim C5: a template run with all its server exchanges succeeding (repo
listing 200, creation acknowledged 201, task fetch 200) issues exactly three
requests in order (GET of the owning project repositories, POST creating the
task, GET of the task by the id from the creation envelope) and returns the
`Task` materialized by that final GET with the owning project id as
context. -/
theorem template_run_three_calls_and_result (api : String) (t : Template)
    (debug dry_run diff : Bool) (message limit environment : String)
    (repos : List Repository) (repo : Repository) (taskId : Int)
    (taskBody : TaskApi)
    (hfind : repos.find? (fun r => r.id == t.repository_id) = some repo) :
    (Template.run t api debug dry_run diff message limit environment
        ⟨200, repos, 201, taskId, 200, taskBody⟩).1.map
        (fun q => (q.method, q.url)) =
      [(Method.get, api ++ "/project/" ++ toString t.project_id ++ "/repositories"),
       (Method.post, api ++ "/project/" ++ toString t.project_id ++ "/tasks"),
       (Method.get, api ++ "/project/" ++ toString t.project_id ++ "/tasks/" ++
         toString taskId)]
    ∧ (Template.run t api debug dry_run diff message limit environment
        ⟨200, repos, 201, taskId, 200, taskBody⟩).2 =
      .ok (Task.ofApi taskBody t.project_id) := by
  constructor <;>
    simp [Template.run, get_project_repositories, get_project_task, hfind]

/-- Witness for claim C5 at a concrete template whose repository is found in
the listed collection. -/
theorem template_run_three_calls_and_result_witness :
    (Template.run
        (Template.mk 1 9 4 3 2 5 "tmpl-a" "a.yml" "" "" false false
          "ansible" [] "" "" 0 false 0 0 0)
        "http://h/api" false false false "msg" "" ""
        ⟨200, [Repository.mk 4 "r" 9 "git://x" "main" 1], 201, 77, 200,
          TaskApi.mk 77 1 "waiting" false "a.yml" "" "" "" "main" "msg"⟩).1.map
        (fun q => (q.method, q.url)) =
      [(Method.get, "http://h/api" ++ "/project/" ++ toString (9 : Int) ++ "/repositories"),
       (Method.post, "http://h/api" ++ "/project/" ++ toString (9 : Int) ++ "/tasks"),
       (Method.get, "http://h/api" ++ "/project/" ++ toString (9 : Int) ++ "/tasks/" ++
         toString (77 : Int))]
    ∧ (Template.run
        (Template.mk 1 9 4 3 2 5 "tmpl-a" "a.yml" "" "" false false
          "ansible" [] "" "" 0 false 0 0 0)
        "http://h/api" false false false "msg" "" ""
        ⟨200, [Repository.mk 4 "r" 9 "git://x" "main" 1], 201, 77, 200,
          TaskApi.mk 77 1 "waiting" false "a.yml" "" "" "" "main" "msg"⟩).2 =
      .ok (Task.ofApi
        (TaskApi.mk 77 1 "waiting" false "a.yml" "" "" "" "main" "msg") 9) :=
  template_run_three_calls_and_result "http://h/api"
    (Template.mk 1 9 4 3 2 5 "tmpl-a" "a.yml" "" "" false false
      "ansible" [] "" "" 0 false 0 0 0)
    false false false "msg" "" ""
    [Repository.mk 4 "r" 9 "git://x" "main" 1]
    (Repository.mk 4 "r" 9 "git://x" "main" 1) 77
    (TaskApi.mk 77 1 "waiting" false "a.yml" "" "" "" "main" "msg") rfl

/-- Claim C7 evaluated on the code: `update_project_schedule` POSTs to the
schedules collection URL and accepts only status 201, the creation status:
the documented update success 204 makes it fail, contradicting both the
claim and the update contract the other update operations follow (shown
here accepting 204). -/
theorem update_schedule_expects_201_not_204 :
    (update_project_schedule "http://h/api" 1 2 3 "nightly" "0 0 1 1 1" true
      204).2 = .error .assertionError
    ∧ (update_project_schedule "http://h/api" 1 2 3 "nightly" "0 0 1 1 1" true
      201).2 = .ok ()
    ∧ (update_project_schedule "http://h/api" 1 2 3 "nightly" "0 0 1 1 1" true
      201).1.map (fun q => (q.method, q.url)) =
      [(Method.post, "http://h/api/project/1/schedules")]
    ∧ (update_project "http://h/api" 1 "n" false "" 4 none 204).2 = .ok ()
    ∧ (update_project_user "http://h/api" 1 ⟨2, "owner"⟩ 204).2 = .ok ()
    ∧ (update_project_integration "http://h/api" 1 2 "n" 3 204).2 = .ok () :=
  ⟨rfl, rfl, rfl, rfl, rfl, rfl⟩

/-- Claim C9 evaluated on the code: `create_project_integrations` does not
POST to the project-scoped integrations collection path; its URL embeds the
text of the Python builtin function `id` with no slash before
`integrations`, and is therefore not the path the claim states for project
id 42. -/
theorem create_integrations_url_is_not_project_scoped :
    (create_project_integrations "http://h/api" 42 "hook" 7 200
      (some ⟨1, "hook", 42, 7⟩)).1.map (fun q => (q.method, q.url)) =
      [(Method.post, "http://h/api/project/<built-in function id>integrations")]
    ∧ "http://h/api/project/<built-in function id>integrations" ≠
      "http://h/api/project/42/integrations"
    ∧ (create_project_integrations "http://h/api" 42 "hook" 7 200
      (some ⟨1, "hook", 42, 7⟩)).2 = .ok ⟨1, "hook", 42, 7⟩ :=
  ⟨rfl, by decide, rfl⟩

end SemaphoreClient
